import Mathlib

/-!
Verification of the activity-classification and session-aggregation core
of the walking-track application.

The TypeScript source is shallowly embedded: numeric values are modelled
by an arbitrary linear ordered field (instantiated at `ℚ` where concrete
evaluation is needed, and at `ℝ` for the haversine geo-distance, which
uses trigonometric functions).  The classifier singleton's mutable fields
(`config`, `speedHistory`, `accelerationHistory`) become an explicit
`ClassifierState` value that is passed and returned.
-/

namespace Walkapp

/-- The ActivityType enum from models/ActivityModel.ts. -/
inductive ActivityType : Type
  | IDLE
  | WALKING
  | RUNNING
  | VEHICLE
  | UNKNOWN
deriving DecidableEq, Repr

/-- The ClassifierConfig interface from models/ActivityModel.ts.
`movingAverageWindow` is a sample count, modelled as a natural number
(its only uses are as a length bound and in the ratio
`speedHistory.length / movingAverageWindow`). -/
structure ClassifierConfig (α : Type) where
  idleSpeedThreshold : α
  walkingSpeedThreshold : α
  runningSpeedThreshold : α
  vehicleSpeedThreshold : α
  idleAccelerationThreshold : α
  walkingAccelerationThreshold : α
  runningAccelerationThreshold : α
  movingAverageWindow : Nat
  confidenceThreshold : α
  stepDetectionThreshold : α
  caloriesPerStep : α
  caloriesPerKmRunning : α
  caloriesPerKmVehicle : α
deriving DecidableEq

/-- DEFAULT_CLASSIFIER_CONFIG from models/ActivityModel.ts (all decimal
literals are exact rationals). -/
def DEFAULT_CLASSIFIER_CONFIG : ClassifierConfig ℚ where
  idleSpeedThreshold := 1/2
  walkingSpeedThreshold := 5/2
  runningSpeedThreshold := 5
  vehicleSpeedThreshold := 8
  idleAccelerationThreshold := 3/20
  walkingAccelerationThreshold := 3/10
  runningAccelerationThreshold := 3/5
  movingAverageWindow := 5
  confidenceThreshold := 7/10
  stepDetectionThreshold := 1/4
  caloriesPerStep := 1/25
  caloriesPerKmRunning := 62
  caloriesPerKmVehicle := 0

/-- The mutable fields of the ActivityClassifierService singleton
(services/ClassifierService.ts), made an explicit state value. -/
structure ClassifierState (α : Type) where
  config : ClassifierConfig α
  speedHistory : List α
  accelerationHistory : List α
deriving DecidableEq

section Classifier

variable {α : Type} [LinearOrderedField α]

/-- calculateMovingAverage (ClassifierService.ts): 0 on an empty array,
otherwise sum divided by length. -/
def calculateMovingAverage (values : List α) : α :=
  if values.length = 0 then 0 else values.sum / (values.length : α)

/-- updateHistory (ClassifierService.ts): append the new value; if the
length now exceeds `movingAverageWindow` (`w`), shift off the oldest
element. -/
def updateHistory (w : Nat) (history : List α) (newValue : α) : List α :=
  let updated := history ++ [newValue]
  if updated.length > w then updated.tail else updated

/-- updateHistories (ClassifierService.ts): push onto both channels. -/
def updateHistories (s : ClassifierState α) (speed acceleration : α) :
    ClassifierState α :=
  { s with
    speedHistory := updateHistory s.config.movingAverageWindow s.speedHistory speed
    accelerationHistory :=
      updateHistory s.config.movingAverageWindow s.accelerationHistory acceleration }

/-- getAverages (ClassifierService.ts). -/
def getAverages (s : ClassifierState α) : α × α :=
  (calculateMovingAverage s.speedHistory,
   calculateMovingAverage s.accelerationHistory)

/-- getActivity (ClassifierService.ts): the ordered threshold rules.
The first rule's inner acceleration test is kept from the source even
though both of its branches return IDLE. -/
def getActivity (s : ClassifierState α) (speed acceleration : α) : ActivityType :=
  let avgSpeed := (getAverages s).1
  let avgAcceleration := (getAverages s).2
  let effectiveSpeed := if avgSpeed > 0 then avgSpeed else speed
  let effectiveAcceleration :=
    if avgAcceleration > 0 then avgAcceleration else acceleration
  if effectiveSpeed < s.config.idleSpeedThreshold then
    if effectiveAcceleration < s.config.idleAccelerationThreshold then
      ActivityType.IDLE
    else
      ActivityType.IDLE
  else if effectiveSpeed ≥ s.config.vehicleSpeedThreshold then
    ActivityType.VEHICLE
  else if effectiveSpeed ≥ s.config.runningSpeedThreshold then
    if effectiveAcceleration ≥ s.config.runningAccelerationThreshold then
      ActivityType.RUNNING
    else
      ActivityType.VEHICLE
  else if effectiveSpeed ≥ s.config.walkingSpeedThreshold then
    if effectiveAcceleration ≥ s.config.walkingAccelerationThreshold then
      ActivityType.RUNNING
    else
      ActivityType.WALKING
  else if effectiveAcceleration ≥ s.config.walkingAccelerationThreshold then
    ActivityType.WALKING
  else
    ActivityType.IDLE

/-- calculateVariance (ClassifierService.ts): mean squared deviation
from the mean, 0 on an empty array. -/
def calculateVariance (values : List α) : α :=
  if values.length = 0 then 0
  else
    calculateMovingAverage
      (values.map (fun value => (value - calculateMovingAverage values) ^ 2))

/-- getConfidence (ClassifierService.ts): base 0.5, plus the
history-sufficiency term, plus the activity-specific consistency bonus,
plus the stability bonus, clamped into [0, 1]. -/
def getConfidence (s : ClassifierState α) (speed acceleration : α)
    (activity : ActivityType) : α :=
  let confidence : α := 1/2
  let historyFactor : α :=
    min ((s.speedHistory.length : α) / (s.config.movingAverageWindow : α)) 1
  let confidence := confidence + historyFactor * (2/10)
  let confidence := confidence +
    (match activity with
     | ActivityType.IDLE =>
         if speed < s.config.idleSpeedThreshold ∧
            acceleration < s.config.idleAccelerationThreshold then (3/10 : α) else 0
     | ActivityType.WALKING =>
         if speed ≥ s.config.idleSpeedThreshold ∧
            speed < s.config.runningSpeedThreshold ∧
            acceleration ≥ s.config.walkingAccelerationThreshold then (25/100 : α) else 0
     | ActivityType.RUNNING =>
         if speed ≥ s.config.runningSpeedThreshold ∧
            acceleration ≥ s.config.runningAccelerationThreshold then (3/10 : α) else 0
     | ActivityType.VEHICLE =>
         if speed ≥ s.config.vehicleSpeedThreshold then (3/10 : α) else 0
     | ActivityType.UNKNOWN => 0)
  let confidence := confidence +
    (if s.speedHistory.length ≥ s.config.movingAverageWindow ∧
        calculateVariance s.speedHistory < 1/2 then (1/10 : α) else 0)
  min (max confidence 0) 1

/-- detectStep (ClassifierService.ts): false with fewer than 2 history
samples; otherwise a peak test against the most recent history sample. -/
def detectStep (s : ClassifierState α) (acceleration : α) : Bool :=
  if s.accelerationHistory.length < 2 then false
  else
    let prevAcceleration := s.accelerationHistory.getLastD 0
    decide (acceleration > prevAcceleration + s.config.stepDetectionThreshold ∧
            acceleration > s.config.walkingAccelerationThreshold)

/-- reset (ClassifierService.ts): clear both histories. -/
def reset (s : ClassifierState α) : ClassifierState α :=
  { s with speedHistory := [], accelerationHistory := [] }

end Classifier

/-- The LocationData interface from models/ActivityModel.ts (`null`
speed and the optional metadata fields become `Option`). -/
structure LocationData (α : Type) where
  latitude : α
  longitude : α
  speed : Option α
  timestamp : Int
  altitude : Option α := none
  accuracy : Option α := none
  heading : Option α := none
deriving DecidableEq

/-- The AccelerometerData interface from models/ActivityModel.ts. -/
structure AccelerometerData (α : Type) where
  x : α
  y : α
  z : α
  magnitude : α
  timestamp : Int
deriving DecidableEq

/-- The ActivityLog interface from models/ActivityModel.ts. -/
structure ActivityLog (α : Type) where
  id : String
  activity : ActivityType
  confidence : α
  location : LocationData α
  acceleration : AccelerometerData α
  timestamp : Int
  speed : α
deriving DecidableEq

/-- The SessionStats interface from models/ActivityModel.ts.  The
partial `activities` tally (absent keys read as 0 through `|| 0`) is
modelled as a total function with default 0. -/
structure SessionStats (α : Type) where
  sessionId : String
  startTime : Int
  endTime : Option Int
  duration : Int
  distance : α
  steps : Nat
  calories : α
  averageSpeed : α
  maxSpeed : α
  activities : ActivityType → Nat

section SpecSide

variable {α : Type} [LinearOrderedField α]

/-- The ordered first-match decision exactly as the spec words it
(spec §4.3 steps 1-7), written independently of `getActivity` for the
refinement comparison.  The history mean is 0 on an empty history, so
"non-empty and mean > 0" coincides with "mean > 0". -/
def specActivity (cfg : ClassifierConfig α)
    (speedHistory accelerationHistory : List α) (speed acceleration : α) :
    ActivityType :=
  let effectiveSpeed :=
    if calculateMovingAverage speedHistory > 0 then
      calculateMovingAverage speedHistory
    else speed
  let effectiveAcceleration :=
    if calculateMovingAverage accelerationHistory > 0 then
      calculateMovingAverage accelerationHistory
    else acceleration
  if effectiveSpeed < cfg.idleSpeedThreshold then ActivityType.IDLE
  else if effectiveSpeed ≥ cfg.vehicleSpeedThreshold then ActivityType.VEHICLE
  else if effectiveSpeed ≥ cfg.runningSpeedThreshold then
    if effectiveAcceleration ≥ cfg.runningAccelerationThreshold then
      ActivityType.RUNNING
    else ActivityType.VEHICLE
  else if effectiveSpeed ≥ cfg.walkingSpeedThreshold then
    if effectiveAcceleration ≥ cfg.walkingAccelerationThreshold then
      ActivityType.RUNNING
    else ActivityType.WALKING
  else if effectiveAcceleration ≥ cfg.walkingAccelerationThreshold then
    ActivityType.WALKING
  else ActivityType.IDLE

/-- The spec-side decision never yields UNKNOWN: every branch is one of
the other four states. -/
lemma specActivity_ne_unknown (cfg : ClassifierConfig α)
    (speedHistory accelerationHistory : List α) (speed acceleration : α) :
    specActivity cfg speedHistory accelerationHistory speed acceleration ≠
      ActivityType.UNKNOWN := by
  unfold specActivity
  dsimp only
  split_ifs <;> simp

end SpecSide

/-- C1: getActivity agrees everywhere with the spec's ordered
first-match decision (Idle below the idle speed threshold; otherwise
Vehicle at or above the vehicle threshold; otherwise the running band
with its acceleration test; otherwise the walking band with its test;
otherwise the low-speed jostle rule; otherwise Idle), and in
particular it is total and never returns Unknown. -/
theorem getActivity_matches_spec_and_never_unknown
    (s : ClassifierState ℚ) (speed acceleration : ℚ) :
    getActivity s speed acceleration =
      specActivity s.config s.speedHistory s.accelerationHistory
        speed acceleration ∧
    getActivity s speed acceleration ≠ ActivityType.UNKNOWN := by
  have heq : getActivity s speed acceleration =
      specActivity s.config s.speedHistory s.accelerationHistory
        speed acceleration := by
    unfold getActivity specActivity getAverages
    dsimp only
    split_ifs <;> rfl
  exact ⟨heq, heq ▸ specActivity_ne_unknown _ _ _ _ _⟩

section SpecConfidence

variable {α : Type} [LinearOrderedField α]

/-- The confidence formula exactly as the spec words it (spec §4.4):
`clamp(0.5 + min(historyLength/window,1)*0.2 + consistency bonus
+ stability bonus, 0, 1)`, written independently of `getConfidence`. -/
def specConfidence (cfg : ClassifierConfig α) (speedHistory : List α)
    (speed acceleration : α) (activity : ActivityType) : α :=
  let base : α := 1/2
  let dataTerm : α :=
    min ((speedHistory.length : α) / (cfg.movingAverageWindow : α)) 1 * (2/10)
  let consistency : α :=
    match activity with
    | ActivityType.IDLE =>
        if speed < cfg.idleSpeedThreshold ∧
           acceleration < cfg.idleAccelerationThreshold then 3/10 else 0
    | ActivityType.WALKING =>
        if cfg.idleSpeedThreshold ≤ speed ∧
           speed < cfg.runningSpeedThreshold ∧
           cfg.walkingAccelerationThreshold ≤ acceleration then 25/100 else 0
    | ActivityType.RUNNING =>
        if cfg.runningSpeedThreshold ≤ speed ∧
           cfg.runningAccelerationThreshold ≤ acceleration then 3/10 else 0
    | ActivityType.VEHICLE =>
        if cfg.vehicleSpeedThreshold ≤ speed then 3/10 else 0
    | ActivityType.UNKNOWN => 0
  let stability : α :=
    if cfg.movingAverageWindow ≤ speedHistory.length ∧
       calculateVariance speedHistory < 1/2 then 1/10 else 0
  min (max (base + dataTerm + consistency + stability) 0) 1

end SpecConfidence

/-- C5: for every classifier state and every raw speed, raw
acceleration magnitude and chosen activity (Unknown included),
getConfidence lies in the closed interval [0,1] and equals the spec's
clamped sum of the 0.5 base, the history-sufficiency term, the
activity-specific consistency bonus and the stability bonus. -/
theorem getConfidence_in_unit_interval_and_formula
    (s : ClassifierState ℚ) (speed acceleration : ℚ)
    (activity : ActivityType) :
    0 ≤ getConfidence s speed acceleration activity ∧
    getConfidence s speed acceleration activity ≤ 1 ∧
    getConfidence s speed acceleration activity =
      specConfidence s.config s.speedHistory speed acceleration activity := by
  refine ⟨?_, ?_, ?_⟩
  · unfold getConfidence
    dsimp only
    exact le_min (le_max_right _ _) zero_le_one
  · unfold getConfidence
    dsimp only
    exact min_le_right _ _
  · cases activity <;> rfl

section HistoryBound

variable {α : Type}

/-- One push preserves the window bound on the history length. -/
lemma updateHistory_length_le (w : Nat) (history : List α) (newValue : α)
    (h : history.length ≤ w) :
    (updateHistory w history newValue).length ≤ w := by
  unfold updateHistory
  dsimp only
  split_ifs with hgt
  · simpa using h
  · simpa using Nat.lt_of_not_le (by simpa using hgt)

/-- Any fold of pushes starting from a history within the bound stays
within the bound. -/
lemma foldl_updateHistory_length_le (w : Nat) (pushes : List α)
    (init : List α) (h : init.length ≤ w) :
    (pushes.foldl (updateHistory w) init).length ≤ w := by
  induction pushes generalizing init with
  | nil => simpa using h
  | cons v vs ih =>
      simpa using ih (updateHistory w init v)
        (updateHistory_length_le w init v h)

end HistoryBound

/-- C6: starting from an empty buffer, after any finite sequence of
pushes the history length is at most the window `w` (hence after each
individual push, every prefix being such a sequence), and when the
bound is hit (length = w > 0) the evicted element is the oldest: the
push yields `history.tail ++ [newValue]`. -/
theorem updateHistory_bounded_and_fifo (w : Nat) (pushes : List ℚ) :
    (pushes.foldl (updateHistory w) []).length ≤ w ∧
    (∀ (history : List ℚ) (newValue : ℚ), history.length = w → 0 < w →
      updateHistory w history newValue = history.tail ++ [newValue]) := by
  constructor
  · exact foldl_updateHistory_length_le w pushes [] (by simp)
  · intro history newValue hlen hpos
    unfold updateHistory
    dsimp only
    rw [if_pos (by simp [hlen])]
    cases history with
    | nil => simp at hlen; omega
    | cons a t => simp

/-- Witness for C6 at window 2 with pushes [1,2,3] and a concrete
bound-hitting push. -/
theorem updateHistory_bounded_and_fifo_witness :
    (([1, 2, 3] : List ℚ).foldl (updateHistory 2) []).length ≤ 2 ∧
    updateHistory 2 [(5 : ℚ), 6] 7 = [(6 : ℚ), 7] := by
  refine ⟨(updateHistory_bounded_and_fifo 2 [1, 2, 3]).1, ?_⟩
  rw [(updateHistory_bounded_and_fifo 2 [1, 2, 3]).2 [5, 6] 7 (by simp)
    (by omega)]
  rfl

/-- C7: detectStep returns false whenever the acceleration history
holds fewer than 2 samples, and with at least 2 samples it returns
true exactly when the input magnitude exceeds the most recent history
sample by more than stepDetectionThreshold and also exceeds
walkingAccelerationThreshold. -/
theorem detectStep_characterisation (s : ClassifierState ℚ) (m : ℚ) :
    (s.accelerationHistory.length < 2 → detectStep s m = false) ∧
    (2 ≤ s.accelerationHistory.length →
      (detectStep s m = true ↔
        m > s.accelerationHistory.getLastD 0 +
              s.config.stepDetectionThreshold ∧
        m > s.config.walkingAccelerationThreshold)) := by
  constructor
  · intro h
    unfold detectStep
    rw [if_pos h]
  · intro h
    unfold detectStep
    rw [if_neg (by omega)]
    dsimp only
    simp [decide_eq_true_iff]

/-- Witness for C7: the empty history yields false for a huge
magnitude, and at the default config a history ending in 2 with input
3 detects a step. -/
theorem detectStep_characterisation_witness :
    detectStep ⟨DEFAULT_CLASSIFIER_CONFIG, [], ([] : List ℚ)⟩ 100 = false ∧
    detectStep ⟨DEFAULT_CLASSIFIER_CONFIG, [], [(1 : ℚ), 2]⟩ 3 = true := by
  constructor
  · exact (detectStep_characterisation
      ⟨DEFAULT_CLASSIFIER_CONFIG, [], ([] : List ℚ)⟩ 100).1 (by simp)
  · exact ((detectStep_characterisation
      ⟨DEFAULT_CLASSIFIER_CONFIG, [], [(1 : ℚ), 2]⟩ 3).2 (by simp)).mpr
      (by constructor <;> norm_num [List.getLastD, DEFAULT_CLASSIFIER_CONFIG])

section FrameModel

variable {α : Type} [LinearOrderedField α]

/-- One read-only call on the classifier singleton: the three
observation methods that contain no assignment to the service state. -/
inductive ReadOnlyCall (α : Type) : Type
  | getActivityCall (speed acceleration : α)
  | getConfidenceCall (speed acceleration : α) (activity : ActivityType)
  | detectStepCall (acceleration : α)

/-- Result of one read-only call. -/
inductive CallResult (α : Type) : Type
  | act (a : ActivityType)
  | conf (c : α)
  | step (b : Bool)

/-- Run one read-only call against the service state, returning its
result together with the state after the call.  Each method body in
ClassifierService.ts only reads `this`, so the resulting state is the
very state the call received. -/
def runReadOnlyCall (s : ClassifierState α) :
    ReadOnlyCall α → CallResult α × ClassifierState α
  | ReadOnlyCall.getActivityCall sp ac =>
      (CallResult.act (getActivity s sp ac), s)
  | ReadOnlyCall.getConfidenceCall sp ac a =>
      (CallResult.conf (getConfidence s sp ac a), s)
  | ReadOnlyCall.detectStepCall m =>
      (CallResult.step (detectStep s m), s)

/-- Run a sequence of read-only calls, threading the service state. -/
def runReadOnlyCalls :
    ClassifierState α → List (ReadOnlyCall α) →
      List (CallResult α) × ClassifierState α
  | s, [] => ([], s)
  | s, c :: cs =>
      let step := runReadOnlyCall s c
      let rest := runReadOnlyCalls step.2 cs
      (step.1 :: rest.1, rest.2)

/-- A single read-only call leaves the classifier state unchanged. -/
lemma runReadOnlyCall_preserves (s : ClassifierState α)
    (c : ReadOnlyCall α) : (runReadOnlyCall s c).2 = s := by
  cases c <;> rfl

end FrameModel

/-- C10: any sequence of read-only classifier calls (getActivity,
getConfidence, detectStep), in any order and of any length, leaves the
classifier state (config and both histories) unchanged, and each call
returns exactly the value of the corresponding pure function at the
initial state. -/
theorem readOnlyCalls_frame (s : ClassifierState ℚ)
    (calls : List (ReadOnlyCall ℚ)) :
    (runReadOnlyCalls s calls).2 = s ∧
    (runReadOnlyCalls s calls).1 =
      calls.map (fun c => (runReadOnlyCall s c).1) := by
  induction calls with
  | nil => exact ⟨rfl, rfl⟩
  | cons c cs ih =>
      have hp := runReadOnlyCall_preserves s c
      simp only [runReadOnlyCalls, hp, List.map_cons]
      exact ⟨ih.1, by rw [ih.2]⟩

/-- The setSessionStats updater inside the Accelerometer listener of
hooks/ActivityClassifier.ts (the hook the tracking screen imports):
steps increase by 1 when the classified activity is Walking or Running;
calories increase by the fixed constants 0.1 (Running) or 0.05
(Walking); duration, averageSpeed and the activity tally are refreshed;
distance and maxSpeed are only touched by the GPS callback. -/
def listenerStatsUpdate (activity : ActivityType) (now : Int)
    (prev : SessionStats ℚ) : SessionStats ℚ :=
  let duration := now - prev.startTime
  let durationInSeconds : ℚ := (duration : ℚ) / 1000
  let steps :=
    if activity = ActivityType.WALKING ∨ activity = ActivityType.RUNNING then
      prev.steps + 1
    else prev.steps
  let calories :=
    if activity = ActivityType.RUNNING then prev.calories + 1/10
    else if activity = ActivityType.WALKING then prev.calories + 1/20
    else prev.calories
  let averageSpeed :=
    if durationInSeconds > 0 then prev.distance / durationInSeconds else 0
  { prev with
    duration := duration
    steps := steps
    calories := calories
    averageSpeed := averageSpeed
    activities :=
      Function.update prev.activities activity (prev.activities activity + 1) }

/-- The Accelerometer listener of hooks/ActivityClassifier.ts, acting
on the classifier state and the session stats.  The listener first
computes `magnitude = calculateMagnitude x y z` from the raw axes;
that magnitude is the input here.  The body runs only when the stored
location has truthy latitude and longitude (JavaScript: nonzero);
it then pushes (speed, magnitude) into both histories, classifies,
and applies `listenerStatsUpdate`.  The step detector is never
consulted on this path. -/
def accelListener (s : ClassifierState ℚ)
    (location : Option (LocationData ℚ)) (prev : SessionStats ℚ)
    (now : Int) (magnitude : ℚ) : ClassifierState ℚ × SessionStats ℚ :=
  match location with
  | none => (s, prev)
  | some loc =>
      if loc.latitude ≠ 0 ∧ loc.longitude ≠ 0 then
        let speed := loc.speed.getD 0
        let s' := updateHistories s speed magnitude
        let activity := getActivity s' speed magnitude
        (s', listenerStatsUpdate activity now prev)
      else (s, prev)

/-- A fresh classifier state with the default configuration. -/
def freshState : ClassifierState ℚ := ⟨DEFAULT_CLASSIFIER_CONFIG, [], []⟩

/-- A fresh session stats value as initialised at session start. -/
def freshStats : SessionStats ℚ :=
  ⟨"session_0", 0, none, 0, 0, 0, 0, 0, 0, fun _ => 0⟩

/-- A location fix at walking speed 3 m/s away from the null island. -/
def walkFix : LocationData ℚ :=
  { latitude := 1, longitude := 1, speed := some 3, timestamp := 0 }

/-- With the default config, speed 3 and magnitude 0.2 pushed into
fresh histories classify as Walking (3 is in the walking band and 0.2
is below the walking acceleration threshold). -/
lemma walkFix_classifies_walking :
    getActivity (updateHistories freshState 3 (1/5)) 3 (1/5) =
      ActivityType.WALKING := by
  norm_num [getActivity, getAverages, calculateMovingAverage,
    updateHistories, updateHistory, freshState, DEFAULT_CLASSIFIER_CONFIG]

/-- After that single push the acceleration history holds one sample,
so the step detector cannot fire. -/
lemma walkFix_no_step :
    detectStep (updateHistories freshState 3 (1/5)) (1/5) = false := by
  norm_num [detectStep, updateHistories, updateHistory, freshState,
    DEFAULT_CLASSIFIER_CONFIG]

/-- The accelerometer-listener update at the concrete walking input. -/
lemma accelListener_walkFix :
    accelListener freshState (some walkFix) freshStats 1000 (1/5) =
      (updateHistories freshState 3 (1/5),
       listenerStatsUpdate ActivityType.WALKING 1000 freshStats) := by
  rw [accelListener, if_pos (by norm_num [walkFix])]
  dsimp only
  rw [show walkFix.speed.getD 0 = 3 from rfl, walkFix_classifies_walking]

/-- C2 counterexample: on the live accelerometer-listener path, with a
fresh default-config state, location (1,1) at speed 3 m/s and
acceleration magnitude 0.2, the step detector does not fire (neither
before nor after the push: the history is too short), yet the session
step count increases by exactly 1, because the path gates steps only
on the classified activity (Walking here). -/
theorem live_step_gating_counterexample :
    (accelListener freshState (some walkFix) freshStats 1000 (1/5)).2.steps =
      freshStats.steps + 1 ∧
    detectStep
      (accelListener freshState (some walkFix) freshStats 1000 (1/5)).1
      (1/5) = false ∧
    detectStep freshState (1/5) = false := by
  refine ⟨?_, ?_, ?_⟩
  · rw [accelListener_walkFix]
    rfl
  · rw [accelListener_walkFix]
    exact walkFix_no_step
  · norm_num [detectStep, freshState]

/-- C2 amended: in the live accelerometer listener
(hooks/ActivityClassifier.ts), for every processed update during an
active session, the step count increases by exactly 1 if the activity
classified after the push is Walking or Running, and is unchanged
otherwise; the Step Detector is not consulted on this path. -/
theorem live_step_gating_amended (s : ClassifierState ℚ)
    (loc : LocationData ℚ) (prev : SessionStats ℚ) (now : Int) (m : ℚ)
    (hlat : loc.latitude ≠ 0) (hlon : loc.longitude ≠ 0) :
    (accelListener s (some loc) prev now m).2.steps =
      if getActivity (updateHistories s (loc.speed.getD 0) m)
            (loc.speed.getD 0) m = ActivityType.WALKING ∨
         getActivity (updateHistories s (loc.speed.getD 0) m)
            (loc.speed.getD 0) m = ActivityType.RUNNING
      then prev.steps + 1 else prev.steps := by
  rw [accelListener, if_pos ⟨hlat, hlon⟩]
  rfl

/-- Witness for the amended C2 at the concrete walking input. -/
theorem live_step_gating_amended_witness :
    (accelListener freshState (some walkFix) freshStats 1000 (1/5)).2.steps =
      freshStats.steps + 1 := by
  rw [live_step_gating_amended freshState walkFix freshStats 1000 (1/5)
    (by norm_num [walkFix]) (by norm_num [walkFix])]
  rw [show walkFix.speed.getD 0 = 3 from rfl, walkFix_classifies_walking]
  simp

/-- C3 counterexample: on the same live update, no step is counted in
the claim's sense (the detector is false), yet calories increase by
0.05 — both the gating and the amount (caloriesPerStep = 0.04)
contradict the claim. -/
theorem live_calories_counterexample :
    (accelListener freshState (some walkFix) freshStats 1000
      (1/5)).2.calories = freshStats.calories + 1/20 ∧
    detectStep
      (accelListener freshState (some walkFix) freshStats 1000 (1/5)).1
      (1/5) = false ∧
    DEFAULT_CLASSIFIER_CONFIG.caloriesPerStep = 1/25 := by
  refine ⟨?_, ?_, rfl⟩
  · rw [accelListener_walkFix]
    rfl
  · rw [accelListener_walkFix]
    exact walkFix_no_step

/-- C3 amended: in the live accelerometer listener, for every
processed update during an active session, calories increase by
exactly 0.1 when the activity classified after the push is Running, by
exactly 0.05 when it is Walking, and are unchanged for Idle, Vehicle
and Unknown; the increments are fixed constants, independent of step
detection, distance and the configured calorie constants. -/
theorem live_calories_amended (s : ClassifierState ℚ)
    (loc : LocationData ℚ) (prev : SessionStats ℚ) (now : Int) (m : ℚ)
    (hlat : loc.latitude ≠ 0) (hlon : loc.longitude ≠ 0) :
    (accelListener s (some loc) prev now m).2.calories =
      if getActivity (updateHistories s (loc.speed.getD 0) m)
           (loc.speed.getD 0) m = ActivityType.RUNNING
      then prev.calories + 1/10
      else if getActivity (updateHistories s (loc.speed.getD 0) m)
           (loc.speed.getD 0) m = ActivityType.WALKING
      then prev.calories + 1/20
      else prev.calories := by
  rw [accelListener, if_pos ⟨hlat, hlon⟩]
  rfl

/-- Witness for the amended C3 at the concrete walking input. -/
theorem live_calories_amended_witness :
    (accelListener freshState (some walkFix) freshStats 1000
      (1/5)).2.calories = freshStats.calories + 1/20 := by
  rw [live_calories_amended freshState walkFix freshStats 1000 (1/5)
    (by norm_num [walkFix]) (by norm_num [walkFix])]
  rw [show walkFix.speed.getD 0 = 3 from rfl, walkFix_classifies_walking]
  simp

section Batch

variable {α : Type} [LinearOrderedField α]

/-- Sum of distances between consecutive logs, as produced by the
index-1-to-end loops of calculateSessionStats (ActivityControl.ts):
both the total-distance loop and the running-distance reduce sum
`dist(arr[i-1], arr[i])` over consecutive pairs. -/
def pairwiseDistanceSum (dist2 : α → α → α → α → α) :
    List (ActivityLog α) → α
  | [] => 0
  | [_] => 0
  | a :: b :: rest =>
      dist2 a.location.latitude a.location.longitude
        b.location.latitude b.location.longitude +
      pairwiseDistanceSum dist2 (b :: rest)

/-- The step-counting loop of calculateSessionStats, threading the
classifier-service state through the detectStep calls (whose bodies
contain no assignment, so each call hands back the state it
received). -/
def stepsLoop : ClassifierState α → List (ActivityLog α) →
    Nat × ClassifierState α
  | s, [] => (0, s)
  | s, log :: rest =>
      let call := (detectStep s log.acceleration.magnitude, s)
      let rest' := stepsLoop call.2 rest
      ((if call.1 ∧ (log.activity = ActivityType.WALKING ∨
          log.activity = ActivityType.RUNNING) then 1 else 0) + rest'.1,
       rest'.2)

/-- calculateSessionStats (ActivityControl.ts), with the geo distance
function passed explicitly and the clock reading `now` an explicit
input; returns the stats together with the classifier-service state
after the run.  On an empty log the zero-valued stats with
`endTime = now` are returned immediately; otherwise distance is the
consecutive-pair haversine sum, steps the detector-gated count over
the log from index 1, calories the per-step total plus the
running-distance bonus, speeds the positive per-record speeds. -/
def calculateSessionStatsM (dist2 : α → α → α → α → α)
    (s : ClassifierState α) (logs : List (ActivityLog α))
    (sessionId : String) (startTime now : Int) :
    SessionStats α × ClassifierState α :=
  if logs.length = 0 then
    (⟨sessionId, startTime, some now, 0, 0, 0, 0, 0, 0, fun _ => 0⟩, s)
  else
    let totalDistance := pairwiseDistanceSum dist2 logs
    let stepsRun := stepsLoop s (logs.drop 1)
    let steps := stepsRun.1
    let s₁ := stepsRun.2
    let config := s₁.config
    let runningDistance := pairwiseDistanceSum dist2
      (logs.filter (fun log => decide (log.activity = ActivityType.RUNNING)))
    let calories := (steps : α) * config.caloriesPerStep +
      (runningDistance / 1000) * config.caloriesPerKmRunning
    let speeds := (logs.map (fun log => log.speed)).filter
      (fun sp => decide (sp > 0))
    let averageSpeed :=
      if speeds.length > 0 then speeds.sum / (speeds.length : α) else 0
    let maxSpeed := match speeds with | [] => 0 | h :: t => t.foldl max h
    let activities := logs.foldl
      (fun acc log => Function.update acc log.activity (acc log.activity + 1))
      (fun _ => 0)
    (⟨sessionId, startTime, some now, now - startTime, totalDistance, steps,
      calories, averageSpeed, maxSpeed, activities⟩, s₁)

/-- The step-counting loop leaves the classifier-service state exactly
as it found it. -/
lemma stepsLoop_preserves (s : ClassifierState α)
    (logs : List (ActivityLog α)) : (stepsLoop s logs).2 = s := by
  induction logs with
  | nil => rfl
  | cons log rest ih => simpa [stepsLoop] using ih

/-- The batch recomputation leaves the classifier-service state exactly
as it found it. -/
lemma calculateSessionStatsM_preserves (dist2 : α → α → α → α → α)
    (s : ClassifierState α) (logs : List (ActivityLog α))
    (sessionId : String) (startTime now : Int) :
    (calculateSessionStatsM dist2 s logs sessionId startTime now).2 = s := by
  unfold calculateSessionStatsM
  split_ifs with h
  · rfl
  · exact stepsLoop_preserves s (logs.drop 1)

end Batch

/-- atan2 as in IEEE/JavaScript Math.atan2, defined by quadrant from
the one-argument arctangent. -/
noncomputable def atan2 (y x : ℝ) : ℝ :=
  if x > 0 then Real.arctan (y / x)
  else if x < 0 ∧ y ≥ 0 then Real.arctan (y / x) + Real.pi
  else if x < 0 ∧ y < 0 then Real.arctan (y / x) - Real.pi
  else if x = 0 ∧ y > 0 then Real.pi / 2
  else if x = 0 ∧ y < 0 then -(Real.pi / 2)
  else 0

/-- The haversine `a` term of calculateDistance (LocationService.ts):
`sin(dPhi/2)*sin(dPhi/2) + cos(phi1)*cos(phi2)*sin(dLam/2)*sin(dLam/2)`
with the angles converted from degrees as in the source. -/
noncomputable def haversineA (lat1 lon1 lat2 lon2 : ℝ) : ℝ :=
  let phi1 := lat1 * Real.pi / 180
  let phi2 := lat2 * Real.pi / 180
  let dPhi := (lat2 - lat1) * Real.pi / 180
  let dLam := (lon2 - lon1) * Real.pi / 180
  Real.sin (dPhi / 2) * Real.sin (dPhi / 2) +
    Real.cos phi1 * Real.cos phi2 *
      Real.sin (dLam / 2) * Real.sin (dLam / 2)

/-- calculateDistance (LocationService.ts): the haversine distance in
meters with Earth radius 6,371,000 m,
`R * 2 * atan2(sqrt(a), sqrt(1-a))`. -/
noncomputable def calculateDistance (lat1 lon1 lat2 lon2 : ℝ) : ℝ :=
  let R : ℝ := 6371000
  let a := haversineA lat1 lon1 lat2 lon2
  let c := 2 * atan2 (Real.sqrt a) (Real.sqrt (1 - a))
  R * c

/-- calculateSessionStats as composed in the source: the batch
recomputation with the haversine geo distance. -/
noncomputable def calculateSessionStatsR (s : ClassifierState ℝ)
    (logs : List (ActivityLog ℝ)) (sessionId : String)
    (startTime now : Int) : SessionStats ℝ × ClassifierState ℝ :=
  calculateSessionStatsM calculateDistance s logs sessionId startTime now

/-- C4: batch recomputation is idempotent: it leaves the classifier
state untouched, so running it a second time over the same ordered
log, with the same sessionId, startTime and clock reading, yields
field-for-field identical SessionStats (endTime and duration
included). -/
theorem batch_recompute_idempotent (s : ClassifierState ℝ)
    (logs : List (ActivityLog ℝ)) (sessionId : String)
    (startTime now : Int) :
    (calculateSessionStatsR
        (calculateSessionStatsR s logs sessionId startTime now).2
        logs sessionId startTime now).1 =
      (calculateSessionStatsR s logs sessionId startTime now).1 ∧
    (calculateSessionStatsR s logs sessionId startTime now).2 = s := by
  have hp := calculateSessionStatsM_preserves calculateDistance s logs
    sessionId startTime now
  refine ⟨?_, hp⟩
  unfold calculateSessionStatsR
  rw [hp]

/-- C8: batch recomputation of an empty log is not an error: it
returns zero distance, steps, calories, averageSpeed, maxSpeed and
duration, an empty activities tally, and the non-null endTime
`some now`. -/
theorem batch_empty_log (s : ClassifierState ℝ) (sessionId : String)
    (startTime now : Int) :
    (calculateSessionStatsR s [] sessionId startTime now).1.distance = 0 ∧
    (calculateSessionStatsR s [] sessionId startTime now).1.steps = 0 ∧
    (calculateSessionStatsR s [] sessionId startTime now).1.calories = 0 ∧
    (calculateSessionStatsR s [] sessionId startTime now).1.averageSpeed = 0 ∧
    (calculateSessionStatsR s [] sessionId startTime now).1.maxSpeed = 0 ∧
    (calculateSessionStatsR s [] sessionId startTime now).1.duration = 0 ∧
    (calculateSessionStatsR s [] sessionId startTime now).1.activities =
      (fun _ => 0) ∧
    (calculateSessionStatsR s [] sessionId startTime now).1.endTime =
      some now := by
  exact ⟨rfl, rfl, rfl, rfl, rfl, rfl, rfl, rfl⟩

/-- C9: the geo distance function returns 0 on identical coordinates
and is symmetric in its two coordinate pairs. -/
theorem calculateDistance_zero_and_symm :
    (∀ lat lon : ℝ, calculateDistance lat lon lat lon = 0) ∧
    (∀ lat1 lon1 lat2 lon2 : ℝ,
      calculateDistance lat1 lon1 lat2 lon2 =
        calculateDistance lat2 lon2 lat1 lon1) := by
  constructor
  · intro lat lon
    unfold calculateDistance
    dsimp only
    have ha : haversineA lat lon lat lon = 0 := by
      unfold haversineA
      dsimp only
      simp
    rw [ha, Real.sqrt_zero]
    have h1 : Real.sqrt (1 - 0) = 1 := by
      norm_num [Real.sqrt_one]
    rw [h1]
    have h2 : atan2 0 1 = 0 := by
      unfold atan2
      rw [if_pos one_pos]
      norm_num [Real.arctan_zero]
    rw [h2]
    norm_num
  · intro lat1 lon1 lat2 lon2
    unfold calculateDistance
    dsimp only
    have ha : haversineA lat2 lon2 lat1 lon1 =
        haversineA lat1 lon1 lat2 lon2 := by
      unfold haversineA
      dsimp only
      rw [show (lat1 - lat2) * Real.pi / 180 / 2 =
            -((lat2 - lat1) * Real.pi / 180 / 2) by ring,
          show (lon1 - lon2) * Real.pi / 180 / 2 =
            -((lon2 - lon1) * Real.pi / 180 / 2) by ring,
          Real.sin_neg, Real.sin_neg]
      ring
    rw [ha]

end Walkapp
